import Mathlib

/-!
Shallow embedding of the LearnHub admin controllers: admin register/login and
the course create/list/update/delete handlers, together with the mongoose-style
stores they mutate.  Handlers are translated statement by statement from the
controller source; external collaborators (bcrypt hashing, jwt signing,
cloudinary upload) are passed in as function parameters, mirroring the imported
utils.  JavaScript truthiness of strings is modelled by comparison with the
empty string, and the absence of a JSON field or of `req.file` by `Option`.
-/

/-- An Admin document: `{id, email, firstName, lastName, password}` where
`password` stores the bcrypt hash produced at registration. -/
structure Admin where
  id : String
  email : String
  firstName : String
  lastName : String
  password : String
  deriving Repr, DecidableEq

/-- A Course document, as persisted by `Course.create`. -/
structure Course where
  id : String
  title : String
  description : String
  price : String
  imageURL : String
  ownerName : String
  createdBy : String
  deriving Repr, DecidableEq

/-- The two mongoose collections, with counters supplying fresh document ids. -/
structure DB where
  admins : List Admin
  courses : List Course
  nextAdminId : Nat
  nextCourseId : Nat
  deriving Repr, DecidableEq

/-- The response envelope a handler sends: HTTP status (Express defaults to
200 when `res.json` is called without `res.status`), the `message` / `error`
fields of the JSON body, whichever `data` payload the endpoint returns, and
the session cookie when one is set. -/
structure Resp where
  status : Nat := 200
  message : Option String := none
  error : Option String := none
  dataAdmin : Option Admin := none
  dataCourses : List Course := []
  dataCourse : Option Course := none
  cookie : Option String := none
  deriving Repr, DecidableEq

/-- JSON body of `POST /register`; a missing key is `none`. -/
structure RegisterBody where
  email : Option String := none
  password : Option String := none
  firstName : Option String := none
  lastName : Option String := none
  deriving Repr, DecidableEq

/-- JSON body of `POST /login`. -/
structure LoginBody where
  email : Option String := none
  password : Option String := none
  deriving Repr, DecidableEq

/-- Multipart/JSON body of course creation and update; a missing key is
`none`. -/
structure CourseBody where
  title : Option String := none
  description : Option String := none
  price : Option String := none
  deriving Repr, DecidableEq

/-- The multer file record; `req.file` itself is `Option ReqFile` since multer
leaves it `undefined` when no file was uploaded. -/
structure ReqFile where
  path : String
  deriving Repr, DecidableEq

/-- A thrown JavaScript runtime error (caught by the handlers' `catch`). -/
inductive JsError where
  | typeError (msg : String)
  deriving Repr, DecidableEq

/-- `error.message` of a thrown error. -/
def JsError.message : JsError → String
  | .typeError m => m

/-- Character-list splitting on a separator (used by the email validator so
that everything reduces by kernel computation). -/
def splitListOn (sep : Char) : List Char → List (List Char)
  | [] => [[]]
  | c :: cs =>
    if c = sep then [] :: splitListOn sep cs
    else
      match splitListOn sep cs with
      | [] => [[c]]
      | h :: t => (c :: h) :: t

/-- Models zod's `z.string().email()` check: one `@`, a non-empty local part,
and a dotted non-empty domain.  (The library regex is finer-grained; no claim
depends on its edge cases.) -/
def zodEmailValid (s : String) : Bool :=
  match splitListOn '@' s.toList with
  | [u, d] =>
      !u.isEmpty && (splitListOn '.' d).length ≥ 2 &&
        (splitListOn '.' d).all (fun seg => !seg.isEmpty)
  | _ => false

/-- Placeholder for the serialized zod issue list a failed `safeParse`
returns in the `error` field. -/
def zodErrorMsg : String := "ZodError"

/-- Parsed `userSchema` data. -/
structure RegisterData where
  email : String
  password : String
  firstName : String
  lastName : String
  deriving Repr, DecidableEq

/-- Parsed `loginSchema` data. -/
structure LoginData where
  email : String
  password : String
  deriving Repr, DecidableEq

/-- Parsed `courseSchema` data. -/
structure CourseData where
  title : String
  description : String
  price : String
  deriving Repr, DecidableEq

/-- `userSchema.safeParse`: all four keys must be present strings, the email
must pass the email validator, the password must have length ≥ 6.  Names are
unconstrained strings (`z.string()` accepts the empty string). -/
def zodParseRegister (b : RegisterBody) : Option RegisterData :=
  match b.email, b.password, b.firstName, b.lastName with
  | some e, some p, some f, some l =>
      if zodEmailValid e && p.length ≥ 6 then some ⟨e, p, f, l⟩ else none
  | _, _, _, _ => none

/-- `loginSchema.safeParse`: email and password present, email valid,
password length ≥ 6. -/
def zodParseLogin (b : LoginBody) : Option LoginData :=
  match b.email, b.password with
  | some e, some p =>
      if zodEmailValid e && p.length ≥ 6 then some ⟨e, p⟩ else none
  | _, _ => none

/-- `courseSchema.safeParse`: title, description and price must all be present
strings.  Each is a bare `z.string()`: the empty string passes, and price has
no numeric-format constraint. -/
def zodParseCourse (b : CourseBody) : Option CourseData :=
  match b.title, b.description, b.price with
  | some t, some d, some p => some ⟨t, d, p⟩
  | _, _, _ => none

/-- `Admin.findOne({ email })`. -/
def findAdminByEmail (db : DB) (email : String) : Option Admin :=
  db.admins.find? (fun a => a.email = email)

/-- `Course.findOne({ title, createdBy })`. -/
def findCourseByTitleOwner (db : DB) (title createdBy : String) : Option Course :=
  db.courses.find? (fun c => c.title = title && c.createdBy = createdBy)

/-- `Course.find({ createdBy })`: every course of that owner, in collection
order. -/
def findCoursesByOwner (db : DB) (createdBy : String) : List Course :=
  db.courses.filter (fun c => c.createdBy = createdBy)

/-- `Course.findById`-style lookup (ids are opaque strings here; ObjectId cast
errors are out of scope). -/
def findCourseById (db : DB) (cid : String) : Option Course :=
  db.courses.find? (fun c => c.id = cid)

/-- `handleAdminRegister`: validate body, re-check truthiness of the four
fields, reject a duplicate email, hash the password, persist the Admin and
return it whole.  (`Admin.create` returns the created document, so the
`if (!user)` branch of the source is dead and mongoose create failures would
throw instead.) -/
def handleAdminRegister (hashPass : String → Option String)
    (body : RegisterBody) (db : DB) : Resp × DB :=
  match zodParseRegister body with
  | none => ({ status := 400, error := some zodErrorMsg }, db)
  | some d =>
    if d.email = "" || d.password = "" || d.firstName = "" || d.lastName = "" then
      ({ status := 400, error := some "Missing required fields" }, db)
    else
      match findAdminByEmail db d.email with
      | some _ => ({ status := 400, error := some "Admin already exists" }, db)
      | none =>
        match hashPass d.password with
        | none => ({ status := 500, error := some "Error in pass hassing" }, db)
        | some hp =>
          let user : Admin :=
            { id := toString db.nextAdminId, email := d.email,
              firstName := d.firstName, lastName := d.lastName, password := hp }
          ({ status := 201, message := some "Admin created successfully",
             dataAdmin := some user },
           { db with admins := db.admins ++ [user],
                     nextAdminId := db.nextAdminId + 1 })

/-- `handleAdminLogin`: validate body, look the admin up by email, verify the
password against the stored hash, sign a token with the configured secret
(falling back to the hard-coded `"qazplm"`), set the `adminSessionId` cookie
and return the stored admin document as `data`. -/
def handleAdminLogin (verifyPass : String → String → Bool)
    (signToken : Admin → String → String) (adminJwtSecret : Option String)
    (body : LoginBody) (db : DB) : Resp × DB :=
  match zodParseLogin body with
  | none => ({ status := 400, error := some zodErrorMsg }, db)
  | some d =>
    if d.email = "" || d.password = "" then
      ({ status := 400, error := some "Missing required fields" }, db)
    else
      match findAdminByEmail db d.email with
      | none => ({ status := 400, error := some "Admin doesnot exists" }, db)
      | some userExists =>
        if ¬ verifyPass d.password userExists.password then
          ({ status := 404, error := some "Invalid password" }, db)
        else
          let secret := adminJwtSecret.getD "qazplm"
          let token := signToken userExists secret
          ({ status := 200, message := some "Admin logged in successfully",
             dataAdmin := some userExists, cookie := some token }, db)

/-- `handleAdminCourseDisplay`: 401 when the gate resolved no admin, otherwise
`Course.find({ createdBy: admin.id })` and a 200 with the list.  The source's
`if (!courses)` branch never fires: `find` yields an array and a JavaScript
array is truthy even when empty. -/
def handleAdminCourseDisplay (admin : Option Admin) (db : DB) : Resp × DB :=
  match admin with
  | none => ({ status := 401, error := some "User is unauthorized" }, db)
  | some a =>
    ({ status := 200, message := some "Courses fetched successfully",
       dataCourses := findCoursesByOwner db a.id }, db)

/-- The Course document `handleCourseCreation` persists on success. -/
def mkCourse (db : DB) (a : Admin) (d : CourseData) (url : String) : Course :=
  { id := toString db.nextCourseId, title := d.title,
    description := d.description, price := d.price, imageURL := url,
    ownerName := a.firstName ++ " " ++ a.lastName, createdBy := a.id }

/-- The `try` body of `handleCourseCreation`.  Accessing `req.file.path` when
no file was uploaded throws the TypeError the surrounding `catch` converts to
an error envelope; every other step is translated directly.  The upload result
is checked for truthiness (`null`/empty string both fail). -/
def courseCreationBody (uploadImage : String → Option String)
    (admin : Option Admin) (body : CourseBody) (reqFile : Option ReqFile)
    (db : DB) : Except JsError (Resp × DB) :=
  match admin with
  | none => .ok ({ status := 401, error := some "User is unauthorized" }, db)
  | some a =>
    match zodParseCourse body with
    | none => .ok ({ status := 400, error := some zodErrorMsg }, db)
    | some d =>
      if d.title = "" || d.description = "" then
        .ok ({ status := 400, error := some "Missing required fields" }, db)
      else
        match findCourseByTitleOwner db d.title a.id with
        | some _ => .ok ({ status := 400, error := some "Course already exists" }, db)
        | none =>
          match reqFile with
          | none => .error (.typeError "cannot read path of undefined")
          | some f =>
            let imageLocalUrl := f.path
            if imageLocalUrl = "" then
              .ok ({ status := 400, error := some "Image is required" }, db)
            else
              match uploadImage imageLocalUrl with
              | none => .ok ({ status := 500, error := some "Error in uploading image" }, db)
              | some url =>
                if url = "" then
                  .ok ({ status := 500, error := some "Error in uploading image" }, db)
                else
                  let course := mkCourse db a d url
                  .ok ({ status := 201, message := some "Course created successfully",
                         dataCourse := some course },
                       { db with courses := db.courses ++ [course],
                                 nextCourseId := db.nextCourseId + 1 })

/-- `handleCourseCreation` with its `catch`: a thrown error becomes
`res.json({ error: error.message })`, i.e. a default-200 response.  The only
throwing statement (`req.file.path`) precedes every mutation, so the store is
unchanged on that path. -/
def handleCourseCreation (uploadImage : String → Option String)
    (admin : Option Admin) (body : CourseBody) (reqFile : Option ReqFile)
    (db : DB) : Resp × DB :=
  match courseCreationBody uploadImage admin body reqFile db with
  | .ok r => r
  | .error e => ({ status := 200, error := some e.message }, db)

/-- The partial-update document `handleCourseUpdate` builds: a field goes in
only when its parsed value is truthy, so an empty string is skipped exactly
like the source's `if (title) ...` chain. -/
def courseInputData (d : CourseData) : Option String × Option String × Option String :=
  (if d.title ≠ "" then some d.title else none,
   if d.description ≠ "" then some d.description else none,
   if d.price ≠ "" then some d.price else none)

/-- `Course.findByIdAndUpdate(courseId, fields, { new: true })`: `none` when
no course has that id, otherwise the updated document and the updated store. -/
def findByIdAndUpdate (db : DB) (cid : String)
    (t de p : Option String) : Option (Course × DB) :=
  match findCourseById db cid with
  | none => none
  | some c =>
    let c' := { c with title := t.getD c.title,
                       description := de.getD c.description,
                       price := p.getD c.price }
    some (c', { db with courses := db.courses.map (fun x => if x.id = cid then c' else x) })

/-- `handleCourseUpdate`: gate check, truthiness check of the id parameter,
full `courseSchema` validation of the body (all three fields required), then
`findByIdAndUpdate` purely by id — `createdBy` is never compared with the
acting admin.  A `null` update result yields 500, not 404. -/
def handleCourseUpdate (admin : Option Admin) (courseId : String)
    (body : CourseBody) (db : DB) : Resp × DB :=
  match admin with
  | none => ({ status := 401, error := some "Unauthorized" }, db)
  | some _ =>
    if courseId = "" then
      ({ status := 400, error := some "Missing required fields" }, db)
    else
      match zodParseCourse body with
      | none => ({ status := 400, error := some zodErrorMsg }, db)
      | some d =>
        let (t, de, p) := courseInputData d
        match findByIdAndUpdate db courseId t de p with
        | none => ({ status := 500, error := some "Error in updating course" }, db)
        | some (updated, db') =>
          ({ status := 200, message := some "Course updated successfully",
             dataCourse := some updated }, db')

/-- `handleCourseDelete`: gate check, id-parameter truthiness check (403),
then `Course.findByIdAndDelete(courseId)` purely by id.  A `null` delete
result yields 500, not 404. -/
def handleCourseDelete (admin : Option Admin) (courseId : String)
    (db : DB) : Resp × DB :=
  match admin with
  | none => ({ status := 401, error := some "Unauthorized" }, db)
  | some _ =>
    if courseId = "" then
      ({ status := 403, error := some "Please provide CourseId" }, db)
    else
      match findCourseById db courseId with
      | none => ({ status := 500, error := some "Error in deleting course" }, db)
      | some _ =>
        ({ status := 200, message := some "Course deleted successfully" },
         { db with courses := db.courses.filter (fun c => c.id ≠ courseId) })

/-! Concrete fixtures used by witnesses and counterexamples. -/

/-- A registered admin with id `"1"`. -/
def adminJane : Admin :=
  { id := "1", email := "a@x.com", firstName := "Jane", lastName := "Doe",
    password := "h1" }

/-- A second admin with a different id. -/
def adminBob : Admin :=
  { id := "2", email := "b@x.com", firstName := "Bob", lastName := "Roe",
    password := "h2" }

/-- A store with no documents. -/
def emptyDB : DB := { admins := [], courses := [], nextAdminId := 1, nextCourseId := 1 }

/-- A well-formed course-creation body. -/
def introBody : CourseBody :=
  { title := some "Intro", description := some "Basics", price := some "10" }

/-- A multer file record with a non-empty local path. -/
def coverFile : ReqFile := { path := "tmp/cover.png" }

/-- An upload collaborator that always succeeds. -/
def uploadOk : String → Option String := fun _ => some "https://cdn/img.png"

/-- An upload collaborator that always fails. -/
def uploadFail : String → Option String := fun _ => none

/-- A stored course owned by `adminJane`. -/
def courseT : Course :=
  { id := "0", title := "T", description := "D", price := "10", imageURL := "u",
    ownerName := "Jane Doe", createdBy := "1" }

/-- A store holding `adminJane` and her course `courseT`. -/
def dbWithT : DB :=
  { admins := [adminJane], courses := [courseT], nextAdminId := 2, nextCourseId := 1 }

/-! Claim theorems. -/

/-- C1: for every admin and every population of courses, the course listing
endpoint succeeds with exactly the courses whose `createdBy` equals the
admin's id — never one owned by a different admin — leaves the store
untouched, and an empty result is still a 200 success with no error. -/
theorem admin_course_list_only_owned (a : Admin) (db : DB) :
    (handleAdminCourseDisplay (some a) db).1.status = 200 ∧
    (handleAdminCourseDisplay (some a) db).1.error = none ∧
    (handleAdminCourseDisplay (some a) db).1.dataCourses
      = db.courses.filter (fun c => c.createdBy = a.id) ∧
    (∀ c ∈ (handleAdminCourseDisplay (some a) db).1.dataCourses, c.createdBy = a.id) ∧
    (∀ c ∈ db.courses, c.createdBy = a.id →
      c ∈ (handleAdminCourseDisplay (some a) db).1.dataCourses) ∧
    (handleAdminCourseDisplay (some a) db).2 = db := by
  refine ⟨rfl, rfl, rfl, ?_, ?_, rfl⟩ <;>
    simp only [handleAdminCourseDisplay, findCoursesByOwner, List.mem_filter,
      decide_eq_true_eq]
  · exact fun c h => h.2
  · exact fun c hc h => ⟨hc, h⟩

/-- C2: a create call that reaches the blob upload and has it fail is
rejected with the 500 upload-failure error and persists nothing: the
store is exactly what it was before the call. -/
theorem create_upload_failure (uploadImage : String → Option String) (a : Admin)
    (body : CourseBody) (d : CourseData) (f : ReqFile) (db : DB)
    (hparse : zodParseCourse body = some d)
    (ht : d.title ≠ "") (hde : d.description ≠ "")
    (hdup : findCourseByTitleOwner db d.title a.id = none)
    (hf : f.path ≠ "")
    (hup : uploadImage f.path = none) :
    handleCourseCreation uploadImage (some a) body (some f) db
      = ({ status := 500, error := some "Error in uploading image" }, db) := by
  simp [handleCourseCreation, courseCreationBody, hparse, ht, hde, hdup, hf, hup]

/-- Witness for C2 at a concrete call. -/
theorem create_upload_failure_witness :
    handleCourseCreation uploadFail (some adminJane) introBody (some coverFile) emptyDB
      = ({ status := 500, error := some "Error in uploading image" }, emptyDB) :=
  create_upload_failure uploadFail adminJane introBody
    ⟨"Intro", "Basics", "10"⟩ coverFile emptyDB rfl (by decide) (by decide)
    rfl (by decide) rfl

/-- The value a truthiness-guarded update field contributes: the prior value
when the supplied string is empty, the supplied string otherwise. -/
theorem getD_truthy (t dflt : String) :
    (if t ≠ "" then some t else none).getD dflt = if t = "" then dflt else t := by
  by_cases h : t = "" <;> simp [h]

/-- C3: update and delete resolve their target purely by id: both succeed on
an existing course even when its `createdBy` differs from the acting admin's
id, and the delete really removes it. -/
theorem update_delete_resolve_by_id_only (a : Admin) (db : DB) (c : Course)
    (body : CourseBody) (d : CourseData)
    (hc : findCourseById db c.id = some c)
    (hown : c.createdBy ≠ a.id)
    (hid : c.id ≠ "")
    (hparse : zodParseCourse body = some d) :
    (handleCourseUpdate (some a) c.id body db).1.status = 200 ∧
    (handleCourseDelete (some a) c.id db).1.status = 200 ∧
    findCourseById (handleCourseDelete (some a) c.id db).2 c.id = none := by
  refine ⟨?_, ?_, ?_⟩
  · simp [handleCourseUpdate, hid, hparse, findByIdAndUpdate, hc, courseInputData]
  · simp [handleCourseDelete, hid, hc]
  · unfold handleCourseDelete
    rw [if_neg hid, hc]
    simp only [findCourseById]
    rw [List.find?_eq_none]
    intro x hx
    have h2 := (List.mem_filter.mp hx).2
    simp only [decide_eq_true_eq] at h2 ⊢
    exact h2


/-- Witness for C3: `adminBob` (id `"2"`) updates and deletes `courseT`,
which is owned by `adminJane` (id `"1"`). -/
theorem update_delete_resolve_by_id_only_witness :
    (handleCourseUpdate (some adminBob) courseT.id introBody dbWithT).1.status = 200 ∧
    (handleCourseDelete (some adminBob) courseT.id dbWithT).1.status = 200 ∧
    findCourseById (handleCourseDelete (some adminBob) courseT.id dbWithT).2 courseT.id = none :=
  update_delete_resolve_by_id_only adminBob dbWithT courseT introBody
    ⟨"Intro", "Basics", "10"⟩ rfl (by decide) (by decide) rfl

/-- C5 counterexample: on `courseT` (title `"T"`, description `"D"`, price
`"10"`), a body supplying only `price` is rejected with a 400 validation
error instead of changing `price`, and a body explicitly supplying
`title := ""` leaves `title` at `"T"` instead of applying the empty string. -/
theorem update_supplied_fields_counterexample :
    (handleCourseUpdate (some adminJane) "0"
        { title := none, description := none, price := some "49.99" } dbWithT)
      = ({ status := 400, error := some zodErrorMsg }, dbWithT) ∧
    (handleCourseUpdate (some adminJane) "0"
        { title := some "", description := some "D", price := some "49.99" } dbWithT).1.dataCourse
      = some { id := "0", title := "T", description := "D", price := "49.99",
               imageURL := "u", ownerName := "Jane Doe", createdBy := "1" } := by
  constructor <;> decide

/-- C5 as amended: the update body must supply all of title, description and
price (a price-only body fails with a 400 validation error and changes
nothing); among the supplied fields exactly the non-empty ones are applied —
a field supplied as the empty string keeps its prior value — and every other
course is untouched. -/
theorem update_applies_nonempty_supplied_fields (a : Admin) (db : DB) (c : Course)
    (t de p : String)
    (hc : findCourseById db c.id = some c) (hid : c.id ≠ "") :
    (handleCourseUpdate (some a) c.id
        { title := none, description := none, price := some p } db)
      = ({ status := 400, error := some zodErrorMsg }, db) ∧
    (handleCourseUpdate (some a) c.id
        { title := some t, description := some de, price := some p } db).1.status = 200 ∧
    (handleCourseUpdate (some a) c.id
        { title := some t, description := some de, price := some p } db).1.dataCourse
      = some { c with title := if t = "" then c.title else t,
                      description := if de = "" then c.description else de,
                      price := if p = "" then c.price else p } ∧
    (handleCourseUpdate (some a) c.id
        { title := some t, description := some de, price := some p } db).2.courses
      = db.courses.map (fun x => if x.id = c.id then
          { c with title := if t = "" then c.title else t,
                   description := if de = "" then c.description else de,
                   price := if p = "" then c.price else p } else x) ∧
    (∀ x ∈ db.courses, x.id ≠ c.id →
      x ∈ (handleCourseUpdate (some a) c.id
        { title := some t, description := some de, price := some p } db).2.courses) := by
  have hmain : handleCourseUpdate (some a) c.id
      { title := some t, description := some de, price := some p } db
      = ({ status := 200, message := some "Course updated successfully",
           dataCourse := some { c with title := if t = "" then c.title else t,
                                       description := if de = "" then c.description else de,
                                       price := if p = "" then c.price else p } },
         { db with courses := db.courses.map (fun x => if x.id = c.id then
             { c with title := if t = "" then c.title else t,
                      description := if de = "" then c.description else de,
                      price := if p = "" then c.price else p } else x) }) := by
    unfold handleCourseUpdate
    rw [if_neg hid]
    show (match findByIdAndUpdate db c.id _ _ _ with
          | none => _ | some (updated, db') => _) = _
    unfold findByIdAndUpdate
    rw [hc]
    simp only [courseInputData, getD_truthy]
  refine ⟨?_, ?_, ?_, ?_, ?_⟩
  · unfold handleCourseUpdate
    rw [if_neg hid]
    rfl
  · rw [hmain]
  · rw [hmain]
  · rw [hmain]
  · intro x hx hne
    rw [hmain]
    have hmem := List.mem_map_of_mem
      (fun y => if y.id = c.id then
        { c with title := if t = "" then c.title else t,
                 description := if de = "" then c.description else de,
                 price := if p = "" then c.price else p } else y) hx
    simpa [hne] using hmem

/-- Witness for C5 as amended: `courseT` updated with `title := ""`,
`description := "D"`, `price := "49.99"`, and a price-only body. -/
theorem update_applies_nonempty_supplied_fields_witness :
    (handleCourseUpdate (some adminJane) courseT.id
        { title := none, description := none, price := some "49.99" } dbWithT)
      = ({ status := 400, error := some zodErrorMsg }, dbWithT) ∧
    (handleCourseUpdate (some adminJane) courseT.id
        { title := some "", description := some "D", price := some "49.99" } dbWithT).1.status = 200 ∧
    (handleCourseUpdate (some adminJane) courseT.id
        { title := some "", description := some "D", price := some "49.99" } dbWithT).1.dataCourse
      = some { courseT with title := if "" = "" then courseT.title else "",
                            description := if "D" = "" then courseT.description else "D",
                            price := if "49.99" = "" then courseT.price else "49.99" } ∧
    (handleCourseUpdate (some adminJane) courseT.id
        { title := some "", description := some "D", price := some "49.99" } dbWithT).2.courses
      = dbWithT.courses.map (fun x => if x.id = courseT.id then
          { courseT with title := if "" = "" then courseT.title else "",
                         description := if "D" = "" then courseT.description else "D",
                         price := if "49.99" = "" then courseT.price else "49.99" } else x) ∧
    (∀ x ∈ dbWithT.courses, x.id ≠ courseT.id →
      x ∈ (handleCourseUpdate (some adminJane) courseT.id
        { title := some "", description := some "D", price := some "49.99" } dbWithT).2.courses) :=
  update_applies_nonempty_supplied_fields adminJane dbWithT courseT "" "D" "49.99"
    rfl (by decide)

/-- C8 counterexample: with a store containing only course id `"0"`, update
and delete at id `"9"` answer 500 (`"Error in updating course"` /
`"Error in deleting course"`), not 404 NotFound, leaving the store as it
was. -/
theorem missing_course_not_404_counterexample :
    (handleCourseUpdate (some adminJane) "9" introBody dbWithT)
      = ({ status := 500, error := some "Error in updating course" }, dbWithT) ∧
    (handleCourseUpdate (some adminJane) "9" introBody dbWithT).1.status ≠ 404 ∧
    (handleCourseDelete (some adminJane) "9" dbWithT)
      = ({ status := 500, error := some "Error in deleting course" }, dbWithT) ∧
    (handleCourseDelete (some adminJane) "9" dbWithT).1.status ≠ 404 := by
  refine ⟨by decide, by decide, by decide, by decide⟩

/-- C8 as amended: when `courseId` does not resolve to an existing course,
update and delete fail with a 500 internal-error response (not 404
NotFound) and leave every stored record as it was. -/
theorem missing_course_update_delete_500 (a : Admin) (cid : String)
    (body : CourseBody) (d : CourseData) (db : DB)
    (hid : cid ≠ "") (hparse : zodParseCourse body = some d)
    (habsent : findCourseById db cid = none) :
    handleCourseUpdate (some a) cid body db
      = ({ status := 500, error := some "Error in updating course" }, db) ∧
    handleCourseDelete (some a) cid db
      = ({ status := 500, error := some "Error in deleting course" }, db) := by
  constructor
  · unfold handleCourseUpdate
    rw [if_neg hid, hparse]
    show (match findByIdAndUpdate db cid _ _ _ with
          | none => _ | some (updated, db') => _) = _
    unfold findByIdAndUpdate
    rw [habsent]
  · unfold handleCourseDelete
    rw [if_neg hid, habsent]

/-- Witness for C8 as amended at id `"9"`, absent from `dbWithT`. -/
theorem missing_course_update_delete_500_witness :
    handleCourseUpdate (some adminJane) "9" introBody dbWithT
      = ({ status := 500, error := some "Error in updating course" }, dbWithT) ∧
    handleCourseDelete (some adminJane) "9" dbWithT
      = ({ status := 500, error := some "Error in deleting course" }, dbWithT) :=
  missing_course_update_delete_500 adminJane "9" introBody
    ⟨"Intro", "Basics", "10"⟩ dbWithT (by decide) rfl rfl

/-- C6: a create call with no uploaded file (`req.file` is `undefined`)
persists nothing, but it does not answer 400 `"Image is required"`: reading
`req.file.path` throws, and the `catch` returns the thrown message in a
default-200 envelope.  The source's own `"Image is required"` check is
unreachable on this path. -/
theorem create_missing_file_typeerror :
    handleCourseCreation uploadOk (some adminJane) introBody none emptyDB
      = ({ status := 200, error := some "cannot read path of undefined" }, emptyDB) ∧
    (handleCourseCreation uploadOk (some adminJane) introBody none emptyDB).1.status ≠ 400 ∧
    (handleCourseCreation uploadOk (some adminJane) introBody none emptyDB).1.error
      ≠ some "Image is required" ∧
    (handleCourseCreation uploadOk (some adminJane) introBody none emptyDB).2.courses
      = emptyDB.courses := by
  refine ⟨by decide, by decide, by decide, by decide⟩

/-- C9 counterexample: a create call whose price is the non-numeric string
`"abc"` is not rejected — it answers 201 and persists the course with price
`"abc"`. -/
theorem nonnumeric_price_accepted_counterexample :
    (handleCourseCreation uploadOk (some adminJane)
        { title := some "Intro", description := some "Basics", price := some "abc" }
        (some coverFile) emptyDB).1.status = 201 ∧
    (handleCourseCreation uploadOk (some adminJane)
        { title := some "Intro", description := some "Basics", price := some "abc" }
        (some coverFile) emptyDB).2.courses
      = [{ id := "1", title := "Intro", description := "Basics", price := "abc",
           imageURL := "https://cdn/img.png", ownerName := "Jane Doe",
           createdBy := "1" }] := by
  refine ⟨by decide, by decide⟩

/-- C9 as amended: create validates its body before any mutation — a body
failing the schema (title, description and price must all be present) is
rejected with 400 and the store is unchanged, and a parsed body with empty
title or description is rejected with 400 — but the price content is never
checked: any string price, numeric or not, reaches persistence unchanged. -/
theorem create_validates_before_mutation_any_price
    (uploadImage : String → Option String) (a : Admin) (db : DB)
    (bodyBad : CourseBody) (t de p : String) (f : ReqFile) (url : String)
    (hbad : zodParseCourse bodyBad = none)
    (ht : t ≠ "") (hde : de ≠ "")
    (hdup : findCourseByTitleOwner db t a.id = none)
    (hf : f.path ≠ "") (hup : uploadImage f.path = some url) (hurl : url ≠ "") :
    handleCourseCreation uploadImage (some a) bodyBad (some f) db
      = ({ status := 400, error := some zodErrorMsg }, db) ∧
    (handleCourseCreation uploadImage (some a)
        { title := some t, description := some de, price := some p } (some f) db).1.status
      = 201 ∧
    (handleCourseCreation uploadImage (some a)
        { title := some t, description := some de, price := some p } (some f) db).2.courses
      = db.courses ++ [mkCourse db a ⟨t, de, p⟩ url] := by
  refine ⟨?_, ?_, ?_⟩
  · simp [handleCourseCreation, courseCreationBody, hbad]
  · simp [handleCourseCreation, courseCreationBody, zodParseCourse,
      ht, hde, hdup, hf, hup, hurl]
  · simp [handleCourseCreation, courseCreationBody, zodParseCourse,
      ht, hde, hdup, hf, hup, hurl]

/-- Witness for C9 as amended: the all-absent body is rejected with the
store untouched, while price `"abc"` is accepted and persisted. -/
theorem create_validates_before_mutation_any_price_witness :
    handleCourseCreation uploadOk (some adminJane)
        { title := none, description := none, price := none } (some coverFile) emptyDB
      = ({ status := 400, error := some zodErrorMsg }, emptyDB) ∧
    (handleCourseCreation uploadOk (some adminJane)
        { title := some "Intro", description := some "Basics", price := some "abc" }
        (some coverFile) emptyDB).1.status = 201 ∧
    (handleCourseCreation uploadOk (some adminJane)
        { title := some "Intro", description := some "Basics", price := some "abc" }
        (some coverFile) emptyDB).2.courses
      = emptyDB.courses ++ [mkCourse emptyDB adminJane ⟨"Intro", "Basics", "abc"⟩
          "https://cdn/img.png"] :=
  create_validates_before_mutation_any_price uploadOk adminJane emptyDB
    { title := none, description := none, price := none } "Intro" "Basics" "abc"
    coverFile "https://cdn/img.png" rfl (by decide) (by decide) rfl (by decide)
    rfl (by decide)

/-- Evaluation of a create call that passes every check: the course built by
`mkCourse` is appended to the store and returned with a 201. -/
theorem create_success_eq (uploadImage : String → Option String) (a : Admin)
    (db : DB) (t de p : String) (f : ReqFile) (url : String)
    (ht : t ≠ "") (hde : de ≠ "")
    (hdup : findCourseByTitleOwner db t a.id = none)
    (hf : f.path ≠ "") (hup : uploadImage f.path = some url) (hurl : url ≠ "") :
    handleCourseCreation uploadImage (some a)
        { title := some t, description := some de, price := some p } (some f) db
      = ({ status := 201, message := some "Course created successfully",
           dataCourse := some (mkCourse db a ⟨t, de, p⟩ url) },
         { db with courses := db.courses ++ [mkCourse db a ⟨t, de, p⟩ url],
                   nextCourseId := db.nextCourseId + 1 }) := by
  simp [handleCourseCreation, courseCreationBody, zodParseCourse,
    ht, hde, hdup, hf, hup, hurl]

/-- C4: with the store free of the title for both owners, the same admin
creating the same title twice gets a 201 then a 400 `"Course already
exists"` with the store unchanged, while a different admin creating that
title against the resulting store also gets a 201. -/
theorem duplicate_title_per_owner
    (uploadImage : String → Option String) (a b : Admin) (db : DB)
    (t de p : String) (f : ReqFile) (url : String)
    (ht : t ≠ "") (hde : de ≠ "") (hab : b.id ≠ a.id)
    (hdupa : findCourseByTitleOwner db t a.id = none)
    (hdupb : findCourseByTitleOwner db t b.id = none)
    (hf : f.path ≠ "") (hup : uploadImage f.path = some url) (hurl : url ≠ "") :
    handleCourseCreation uploadImage (some a)
        { title := some t, description := some de, price := some p } (some f) db
      = ({ status := 201, message := some "Course created successfully",
           dataCourse := some (mkCourse db a ⟨t, de, p⟩ url) },
         { db with courses := db.courses ++ [mkCourse db a ⟨t, de, p⟩ url],
                   nextCourseId := db.nextCourseId + 1 }) ∧
    handleCourseCreation uploadImage (some a)
        { title := some t, description := some de, price := some p } (some f)
        { db with courses := db.courses ++ [mkCourse db a ⟨t, de, p⟩ url],
                  nextCourseId := db.nextCourseId + 1 }
      = ({ status := 400, error := some "Course already exists" },
         { db with courses := db.courses ++ [mkCourse db a ⟨t, de, p⟩ url],
                   nextCourseId := db.nextCourseId + 1 }) ∧
    (handleCourseCreation uploadImage (some b)
        { title := some t, description := some de, price := some p } (some f)
        { db with courses := db.courses ++ [mkCourse db a ⟨t, de, p⟩ url],
                  nextCourseId := db.nextCourseId + 1 }).1.status = 201 := by
  have hdupa' : db.courses.find? (fun c => c.title = t && c.createdBy = a.id) = none := hdupa
  have hdupb' : db.courses.find? (fun c => c.title = t && c.createdBy = b.id) = none := hdupb
  have hba : a.id ≠ b.id := fun h => hab h.symm
  have hfind2 : findCourseByTitleOwner
      { db with courses := db.courses ++ [mkCourse db a ⟨t, de, p⟩ url],
                nextCourseId := db.nextCourseId + 1 } t a.id
      = some (mkCourse db a ⟨t, de, p⟩ url) := by
    simp [findCourseByTitleOwner, List.find?_append, hdupa', mkCourse]
  have hdupb2 : findCourseByTitleOwner
      { db with courses := db.courses ++ [mkCourse db a ⟨t, de, p⟩ url],
                nextCourseId := db.nextCourseId + 1 } t b.id = none := by
    simp [findCourseByTitleOwner, List.find?_append, hdupb', mkCourse, hba]
  refine ⟨create_success_eq uploadImage a db t de p f url ht hde hdupa hf hup hurl,
    ?_, ?_⟩
  · simp [handleCourseCreation, courseCreationBody, zodParseCourse, ht, hde, hfind2]
  · rw [create_success_eq uploadImage b _ t de p f url ht hde hdupb2 hf hup hurl]

/-- Witness for C4: `adminJane` creates `"Intro"` twice over the empty
store, then `adminBob` creates `"Intro"` once. -/
theorem duplicate_title_per_owner_witness :
    handleCourseCreation uploadOk (some adminJane)
        { title := some "Intro", description := some "Basics", price := some "10" }
        (some coverFile) emptyDB
      = ({ status := 201, message := some "Course created successfully",
           dataCourse := some (mkCourse emptyDB adminJane ⟨"Intro", "Basics", "10"⟩
             "https://cdn/img.png") },
         { emptyDB with
             courses := emptyDB.courses ++ [mkCourse emptyDB adminJane
               ⟨"Intro", "Basics", "10"⟩ "https://cdn/img.png"],
             nextCourseId := emptyDB.nextCourseId + 1 }) ∧
    handleCourseCreation uploadOk (some adminJane)
        { title := some "Intro", description := some "Basics", price := some "10" }
        (some coverFile)
        { emptyDB with
            courses := emptyDB.courses ++ [mkCourse emptyDB adminJane
              ⟨"Intro", "Basics", "10"⟩ "https://cdn/img.png"],
            nextCourseId := emptyDB.nextCourseId + 1 }
      = ({ status := 400, error := some "Course already exists" },
         { emptyDB with
             courses := emptyDB.courses ++ [mkCourse emptyDB adminJane
               ⟨"Intro", "Basics", "10"⟩ "https://cdn/img.png"],
             nextCourseId := emptyDB.nextCourseId + 1 }) ∧
    (handleCourseCreation uploadOk (some adminBob)
        { title := some "Intro", description := some "Basics", price := some "10" }
        (some coverFile)
        { emptyDB with
            courses := emptyDB.courses ++ [mkCourse emptyDB adminJane
              ⟨"Intro", "Basics", "10"⟩ "https://cdn/img.png"],
            nextCourseId := emptyDB.nextCourseId + 1 }).1.status = 201 :=
  duplicate_title_per_owner uploadOk adminJane adminBob emptyDB
    "Intro" "Basics" "10" coverFile "https://cdn/img.png"
    (by decide) (by decide) (by decide) rfl rfl (by decide) rfl (by decide)

/-- The Admin document `handleAdminRegister` persists on success. -/
def mkAdmin (db : DB) (d : RegisterData) (hp : String) : Admin :=
  { id := toString db.nextAdminId, email := d.email,
    firstName := d.firstName, lastName := d.lastName, password := hp }

/-- The register body used by the C7 witness. -/
def regBodyJane : RegisterBody :=
  { email := some "a@x.com", password := some "secret1",
    firstName := some "Jane", lastName := some "Doe" }

/-- A hashing collaborator that always yields the digest `"h1"`. -/
def hashConst : String → Option String := fun _ => some "h1"

/-- C7: a first registration with an unused email succeeds with a 201 and no
error, appending exactly one Admin record; a second registration with the
same email (any valid body, any hasher) fails with 400 `"Admin already
exists"` and leaves the store — the first record included — untouched. -/
theorem register_duplicate_email
    (hashPass hashPass2 : String → Option String)
    (body body2 : RegisterBody) (d d2 : RegisterData) (db : DB) (hp : String)
    (hparse : zodParseRegister body = some d)
    (he : d.email ≠ "") (hpw : d.password ≠ "")
    (hfn : d.firstName ≠ "") (hln : d.lastName ≠ "")
    (hnew : findAdminByEmail db d.email = none)
    (hhash : hashPass d.password = some hp)
    (hparse2 : zodParseRegister body2 = some d2)
    (he2 : d2.email ≠ "") (hpw2 : d2.password ≠ "")
    (hfn2 : d2.firstName ≠ "") (hln2 : d2.lastName ≠ "")
    (hsame : d2.email = d.email) :
    handleAdminRegister hashPass body db
      = ({ status := 201, message := some "Admin created successfully",
           dataAdmin := some (mkAdmin db d hp) },
         { db with admins := db.admins ++ [mkAdmin db d hp],
                   nextAdminId := db.nextAdminId + 1 }) ∧
    handleAdminRegister hashPass2 body2
        { db with admins := db.admins ++ [mkAdmin db d hp],
                  nextAdminId := db.nextAdminId + 1 }
      = ({ status := 400, error := some "Admin already exists" },
         { db with admins := db.admins ++ [mkAdmin db d hp],
                   nextAdminId := db.nextAdminId + 1 }) := by
  have hnew' : db.admins.find? (fun x => x.email = d.email) = none := hnew
  constructor
  · unfold handleAdminRegister
    rw [hparse]
    simp [he, hpw, hfn, hln, hnew, hhash, mkAdmin]
  · unfold handleAdminRegister
    rw [hparse2]
    have hfound : findAdminByEmail
        { db with admins := db.admins ++ [mkAdmin db d hp],
                  nextAdminId := db.nextAdminId + 1 } d2.email
        = some (mkAdmin db d hp) := by
      simp [findAdminByEmail, hsame, List.find?_append, hnew', mkAdmin]
    simp [he2, hpw2, hfn2, hln2, hfound]

/-- Witness for C7: registering `a@x.com` twice over the empty store. -/
theorem register_duplicate_email_witness :
    handleAdminRegister hashConst regBodyJane emptyDB
      = ({ status := 201, message := some "Admin created successfully",
           dataAdmin := some (mkAdmin emptyDB ⟨"a@x.com", "secret1", "Jane", "Doe"⟩ "h1") },
         { emptyDB with
             admins := emptyDB.admins
               ++ [mkAdmin emptyDB ⟨"a@x.com", "secret1", "Jane", "Doe"⟩ "h1"],
             nextAdminId := emptyDB.nextAdminId + 1 }) ∧
    handleAdminRegister hashConst regBodyJane
        { emptyDB with
            admins := emptyDB.admins
              ++ [mkAdmin emptyDB ⟨"a@x.com", "secret1", "Jane", "Doe"⟩ "h1"],
            nextAdminId := emptyDB.nextAdminId + 1 }
      = ({ status := 400, error := some "Admin already exists" },
         { emptyDB with
             admins := emptyDB.admins
               ++ [mkAdmin emptyDB ⟨"a@x.com", "secret1", "Jane", "Doe"⟩ "h1"],
             nextAdminId := emptyDB.nextAdminId + 1 }) :=
  register_duplicate_email hashConst hashConst regBodyJane regBodyJane
    ⟨"a@x.com", "secret1", "Jane", "Doe"⟩ ⟨"a@x.com", "secret1", "Jane", "Doe"⟩
    emptyDB "h1" (by decide) (by decide) (by decide) (by decide) (by decide) rfl
    rfl (by decide) (by decide) (by decide) (by decide) (by decide) rfl

/-- C10: a successful login answers 200 with `data` equal to the stored
Admin document in full — its `password` field is the stored hash — and the
store is unchanged. -/
theorem login_returns_stored_admin
    (verifyPass : String → String → Bool) (signToken : Admin → String → String)
    (secretCfg : Option String) (body : LoginBody) (d : LoginData)
    (db : DB) (ad : Admin)
    (hparse : zodParseLogin body = some d)
    (he : d.email ≠ "") (hpw : d.password ≠ "")
    (hfind : findAdminByEmail db d.email = some ad)
    (hverify : verifyPass d.password ad.password = true) :
    handleAdminLogin verifyPass signToken secretCfg body db
      = ({ status := 200, message := some "Admin logged in successfully",
           dataAdmin := some ad,
           cookie := some (signToken ad (secretCfg.getD "qazplm")) }, db) ∧
    (handleAdminLogin verifyPass signToken secretCfg body db).1.dataAdmin.map
        Admin.password
      = some ad.password := by
  have h : handleAdminLogin verifyPass signToken secretCfg body db
      = ({ status := 200, message := some "Admin logged in successfully",
           dataAdmin := some ad,
           cookie := some (signToken ad (secretCfg.getD "qazplm")) }, db) := by
    unfold handleAdminLogin
    rw [hparse]
    simp [he, hpw, hfind, hverify]
  exact ⟨h, by simp [h]⟩

/-- A verifier that accepts everything, for the C10 witness. -/
def verifyAlways : String → String → Bool := fun _ _ => true

/-- A signer returning a fixed token, for the C10 witness. -/
def signConst : Admin → String → String := fun _ _ => "tok"

/-- The login body used by the C10 witness. -/
def loginBodyJane : LoginBody := { email := some "a@x.com", password := some "secret1" }

/-- Witness for C10: `adminJane` logs in and gets her stored record —
hash included — back. -/
theorem login_returns_stored_admin_witness :
    handleAdminLogin verifyAlways signConst none loginBodyJane dbWithT
      = ({ status := 200, message := some "Admin logged in successfully",
           dataAdmin := some adminJane,
           cookie := some (signConst adminJane ((none : Option String).getD "qazplm")) },
         dbWithT) ∧
    (handleAdminLogin verifyAlways signConst none loginBodyJane dbWithT).1.dataAdmin.map
        Admin.password
      = some adminJane.password :=
  login_returns_stored_admin verifyAlways signConst none loginBodyJane
    ⟨"a@x.com", "secret1"⟩ dbWithT adminJane (by decide) (by decide) (by decide)
    rfl rfl
